import Mathlib

/-!
Verification of the smaract protocol client (ALBA-Synchrotron/smaract).

Shallow embedding of the pure computational core of the Python sources:
`smaract/communication.py` (wire framing), `smaract/controller.py`
(answer error decoding, channel enumeration), `smaract/axis.py`
(per-axis command building, angular position decomposition) and
`smaract/constants.py` (range validators, status tables).

Python strings are modelled as `List Char` or `String`, Python integers
as `Int` (channel numbers, which come from `range(...)`, as `Nat`).
The constant `TURN = 360*1e6` is a float in the source, but it is exactly
the integer 360000000 and every value it meets here stays far below 2^53,
so all the float arithmetic involved is exact and is embedded over `Int`;
the truncation `int(x / TURN)` agrees with integer T-division because the
quotients involved are never closer to an integer than the float rounding
error (see the comment at `_angle_rev`).
-/

namespace Smaract

/-! ### Python decimal formatting of integers, mirroring the "%d" conversion -/

/-- Decimal digit character for a value below 10 (other inputs are never
reached by `natToCharsAux`). -/
def digitChar : Nat → Char
  | 0 => '0'
  | 1 => '1'
  | 2 => '2'
  | 3 => '3'
  | 4 => '4'
  | 5 => '5'
  | 6 => '6'
  | 7 => '7'
  | 8 => '8'
  | 9 => '9'
  | _ => '*'

/-- Fueled digit accumulator: writes the decimal digits of `n` in front of
`acc`. The fuel is only a structural-termination device; `natToChars`
always supplies enough of it. -/
def natToCharsAux : Nat → Nat → List Char → List Char
  | 0, _, acc => acc
  | fuel + 1, n, acc =>
    if n < 10 then digitChar n :: acc
    else natToCharsAux fuel (n / 10) (digitChar (n % 10) :: acc)

/-- Decimal digits of a natural number, as produced by the Python
conversion `"%d" % n` for `n >= 0`. -/
def natToChars (n : Nat) : List Char :=
  natToCharsAux (n + 1) n []

/-- Result of the Python conversion `"%d" % i`: decimal digits with a
leading minus sign for negative values, no spaces, no plus sign. -/
def intToChars (i : Int) : List Char :=
  if i < 0 then '-' :: natToChars i.natAbs else natToChars i.natAbs

/-! ### Python `int(...)` parsing (as needed for the numeric protocol
answers: an optional minus sign followed by decimal digits; anything else
raises `ValueError`, modelled as `none`) -/

/-- Value of one decimal digit character, `none` on a non-digit. -/
def digitVal (c : Char) : Option Nat :=
  if '0' ≤ c ∧ c ≤ '9' then some (c.toNat - 48) else none

/-- Parse a nonempty all-digit string into a natural number. -/
def parseDigits : List Char → Option Nat
  | [] => none
  | [c] => digitVal c
  | c :: rest =>
    match digitVal c, parseDigits rest with
    | some d, some n => some (d * 10 ^ rest.length + n)
    | _, _ => none

/-- Python `int(s)` on the strings this protocol produces. -/
def pyInt (s : List Char) : Option Int :=
  match s with
  | '-' :: rest => (parseDigits rest).map (fun n => -(n : Int))
  | _ => (parseDigits s).map (fun n => (n : Int))

/-- Python `s.rsplit(',', 1)[1]`: the part of `s` after the last comma;
`none` when `s` holds no comma (then `[1]` raises `IndexError`). -/
def afterLastComma (s : List Char) : Option (List Char) :=
  if ',' ∈ s then some ((s.reverse.takeWhile (fun c => c ≠ ',')).reverse)
  else none

/-! ### communication.py — SmaractCommunication.send_cmd (lines 60-63)

`cmd = ':%s\n' % cmd` builds the outgoing frame and `ans[1:-1]` strips one
leading and one trailing character from the raw answer line. -/

/-- Wire frame for a command payload: `':%s\n' % cmd`. -/
def comm_frame (cmd : List Char) : List Char :=
  ':' :: cmd ++ ['\n']

/-- Answer stripping `ans[1:-1]`: drop the first and the last character. -/
def comm_strip (ans : List Char) : List Char :=
  (ans.drop 1).dropLast

/-! ### axis.py — SmaractBaseAxis._send_cmd (lines 31-42)

`str_cmd = "%s%d" % (str_cmd, self._axis_nr)` then
`cmd = str_cmd + "".join([",%d" % i for i in pars])`. -/

/-- Comma-prefixed decimal rendering of the optional parameters:
`"".join([",%d" % i for i in pars])`. -/
def pars_join (pars : List Int) : List Char :=
  (pars.map (fun i => ',' :: intToChars i)).flatten

/-- Command payload built by an axis: mnemonic, then the zero-based
channel number with no separator, then the comma-prefixed parameters. -/
def axis_send_payload (str_cmd : List Char) (axis_nr : Nat)
    (pars : List Int) : List Char :=
  (str_cmd ++ natToChars axis_nr) ++ pars_join pars

/-- Codec-level payload for a bare mnemonic with integer parameters: the
mnemonic followed by the comma-prefixed parameters (the same parameter
join as `axis_send_payload`, without the channel digit). -/
def encode_payload (mnemonic : List Char) (pars : List Int) : List Char :=
  mnemonic ++ pars_join pars

/-- Full codec encoding: payload wrapped into the wire frame. -/
def encode (mnemonic : List Char) (pars : List Int) : List Char :=
  comm_frame (encode_payload mnemonic pars)

/-! ### controller.py — error code table and send_cmd (lines 26-53, 105-126) -/

/-- `SmaractBaseController.ERROR_CODES`, the fixed code-to-message table,
as a partial function (dictionary lookup). -/
def ERROR_CODES (code : Int) : Option String :=
  if code = 0 then some "No Error"
  else if code = 1 then some "Syntax Error"
  else if code = 2 then some "Invalid Command Error"
  else if code = 3 then some "Overflow Error"
  else if code = 4 then some "Parse Error"
  else if code = 5 then some "Too Few Parameters Error"
  else if code = 6 then some "Too Many Parameters Error"
  else if code = 7 then some "Invalid Parameter Error"
  else if code = 8 then some "Wrong Mode Error"
  else if code = 129 then some "No Sensor Present Error"
  else if code = 140 then some "Sensor Disabled Error"
  else if code = 141 then some "Command Overridden Error"
  else if code = 142 then some "End Stop Reached Error"
  else if code = 143 then some "Wrong Sensor Type Error"
  else if code = 144 then some "Could Not Find Reference Mark Error"
  else if code = 145 then some "Wrong End Effector Type Error"
  else if code = 146 then some "Movement Locked Error"
  else if code = 147 then some "Range Limit Reached Error"
  else if code = 148 then some "Physical Position Unknown Error"
  else if code = 150 then some "Command Not Processable Error"
  else if code = 151 then some "Waiting For Trigger Error"
  else if code = 152 then some "Command Not Triggerable Error"
  else if code = 153 then some "Command Queue Full Error"
  else if code = 154 then some "Invalid Component Error"
  else if code = 155 then some "Invalid Sub Component Error"
  else if code = 156 then some "Invalid Property Error"
  else if code = 157 then some "Permission Denied Error"
  else if code = 159 then some "Power Amplifier Disabled Error"
  else none

/-- Message attached to a non-zero error code: the table entry when the
code is documented, otherwise the generic fallback string built at
controller.py lines 121-122. -/
def error_message (code : Int) : String :=
  match ERROR_CODES code with
  | some msg => msg
  | none => "There is not message for this error on the documentation"

/-- `int(ans.rsplit(',', 1)[1])`: the integer after the last comma of the
answer; `none` models the uncaught `IndexError`/`ValueError` when there is
no comma or the tail is not an integer. -/
def parse_error_code (ans : List Char) : Option Int :=
  (afterLastComma ans).bind pyInt

/-- Outcome of `SmaractBaseController.send_cmd` once the transport has
returned the decoded answer string: the answer is handed back, or a
`RuntimeError` carrying the error code and its message is raised, or an
uncaught exception (`IndexError` on a too-short answer, parsing failures)
escapes. -/
inductive SendResult where
  | ok : List Char → SendResult
  | raised : Int → String → SendResult
  | crash : SendResult
deriving DecidableEq

/-- The error-decoding tail of `send_cmd` (controller.py lines 113-126),
as a function of the answer string `ans` returned by the communication
layer. `flg_error = ans[0] == 'E' and ans[1] != 'S'` with Python
short-circuit evaluation: `ans[1]` is only read when `ans[0] == 'E'`. -/
def check_answer (ans : List Char) : SendResult :=
  match ans with
  | [] => .crash
  | c0 :: rest0 =>
    if c0 = 'E' then
      match rest0 with
      | [] => .crash
      | c1 :: _ =>
        if c1 = 'S' then .ok ans
        else
          match parse_error_code ans with
          | none => .crash
          | some code =>
            if code ≠ 0 then .raised code (error_message code)
            else .ok ans
    else .ok ans

/-! ### constants.py — numeric bounds (lines 16-46)

`MAX_ACCELERATION = 10e7` and `TURN = 360*1e6` are floats in the source
but denote the exact integers used here. -/

def MAX_STEPS : Int := 30000

def MAX_ACCELERATION : Int := 100000000

def MAX_ANGLE : Int := 359999999

def MIN_ANGLE : Int := 0

def MAX_REV : Int := 32767

def MIN_REV : Int := -32768

def MIN_HOLD_TIME : Int := 0

def MAX_HOLD_TIME : Int := 60000

def TURN : Int := 360000000

/-! ### constants.py — range validators

Each Python validator wraps a non-list argument into a one-element list
(`is_steps_in_range` slips and keeps the bare value) and then loops,
raising `ValueError` with a fixed message on the first offending value. -/

/-- Argument shape accepted by the validators: a single integer or a list
of integers. -/
inductive PyArg where
  | single : Int → PyArg
  | list : List Int → PyArg

/-- Outcome of a validator: success, a `ValueError` with its message, or
an uncaught `TypeError`. -/
inductive ValidateResult where
  | ok : ValidateResult
  | valueError : String → ValidateResult
  | typeError : ValidateResult
deriving DecidableEq

/-- `'Valid acceleration range: [0,%d] um/s^2' % MAX_ACCELERATION`. -/
def acc_msg : String := "Valid acceleration range: [0,100000000] um/s^2"

/-- `'Valid step range is [-%d, %d]' % (MAX_STEPS, MAX_STEPS)`. -/
def steps_msg : String := "Valid step range is [-30000, 30000]"

/-- `'Valid angle range: [%d, %d] s' % (MIN_ANGLE, MAX_ANGLE)`. -/
def angle_msg : String := "Valid angle range: [0, 359999999] s"

/-- `'Valid revolution range: [%d, %d] s' % (MIN_REV, MAX_REV)`. -/
def rev_msg : String := "Valid revolution range: [-32768, 32767] s"

/-- `'Valid hold time range: [%d,%d] ms' % (MIN_HOLD_TIME, MAX_HOLD_TIME)`. -/
def hold_msg : String := "Valid hold time range: [0,60000] ms"

/-- Loop body of `is_acceleration_in_range` (constants.py lines 219-223):
`if not (0 <= value <= MAX_ACCELERATION): raise ValueError(msg)`. -/
def acc_check : List Int → ValidateResult
  | [] => .ok
  | v :: rest =>
    if 0 ≤ v ∧ v ≤ MAX_ACCELERATION then acc_check rest
    else .valueError acc_msg

/-- `is_acceleration_in_range` (constants.py lines 211-223): a non-list
argument is wrapped into a one-element list, then each value is checked. -/
def is_acceleration_in_range (arg : PyArg) : ValidateResult :=
  acc_check (match arg with | .single x => [x] | .list xs => xs)

/-- Loop body of `is_steps_in_range` (constants.py lines 249-252):
`if abs(value) > MAX_STEPS or value == 0: raise ValueError(msg)`. -/
def steps_check : List Int → ValidateResult
  | [] => .ok
  | v :: rest =>
    if abs v > MAX_STEPS ∨ v = 0 then .valueError steps_msg
    else steps_check rest

/-- `is_steps_in_range` (constants.py lines 241-252). Unlike every other
validator, line 248 reads `values = (values)` instead of
`values = [values]`, so a single integer argument is NOT wrapped into a
list and the following `for value in values` raises `TypeError`
(an int is not iterable). -/
def is_steps_in_range : PyArg → ValidateResult
  | .list xs => steps_check xs
  | .single _ => .typeError

/-- Loop body of `is_angle_in_range` (constants.py lines 189-193). -/
def angle_check : List Int → ValidateResult
  | [] => .ok
  | v :: rest =>
    if MIN_ANGLE ≤ v ∧ v ≤ MAX_ANGLE then angle_check rest
    else .valueError angle_msg

/-- `is_angle_in_range` (constants.py lines 181-193). -/
def is_angle_in_range (arg : PyArg) : ValidateResult :=
  angle_check (match arg with | .single x => [x] | .list xs => xs)

/-- Loop body of `is_revolution_in_range` (constants.py lines 234-238). -/
def rev_check : List Int → ValidateResult
  | [] => .ok
  | v :: rest =>
    if MIN_REV ≤ v ∧ v ≤ MAX_REV then rev_check rest
    else .valueError rev_msg

/-- `is_revolution_in_range` (constants.py lines 226-238). -/
def is_revolution_in_range (arg : PyArg) : ValidateResult :=
  rev_check (match arg with | .single x => [x] | .list xs => xs)

/-- Loop body of `is_hold_time_in_range` (constants.py lines 466-470). -/
def hold_time_check : List Int → ValidateResult
  | [] => .ok
  | v :: rest =>
    if MIN_HOLD_TIME ≤ v ∧ v ≤ MAX_HOLD_TIME then hold_time_check rest
    else .valueError hold_msg

/-- `is_hold_time_in_range` (constants.py lines 458-470). -/
def is_hold_time_in_range (arg : PyArg) : ValidateResult :=
  hold_time_check (match arg with | .single x => [x] | .list xs => xs)

/-! ### constants.py — Status tables (lines 49-88) -/

/-- `Status.states_txt`: dictionary from raw status code to the short
state message; `none` models a `KeyError`. -/
def states_txt (code : Int) : Option String :=
  if code = 0 then some "Stopped"
  else if code = 1 then some "Stepping"
  else if code = 2 then some "Scanning"
  else if code = 3 then some "Holding"
  else if code = 4 then some "Targeting"
  else if code = 5 then some "Move delay"
  else if code = 6 then some "Calibrating"
  else if code = 7 then some "Finding reference mark"
  else if code = 9 then some "Locked"
  else none

/-- `Status.status_txt`: dictionary from raw status code to the long
status sentence (adjacent Python string literals concatenated verbatim,
including the double space of entry 5 and the typo of entry 6);
`none` models a `KeyError`. -/
def status_txt (code : Int) : Option String :=
  if code = 0 then
    some "The positioner is currently not performing any active movement."
  else if code = 1 then
    some "The positioner is performing an open-loop movement."
  else if code = 2 then
    some "The positioner is performing a scanning movement."
  else if code = 3 then
    some ("The positioner is holding its current target position " ++
      "or is holding the reference mark")
  else if code = 4 then
    some "The positioner is performing a close-loop movement."
  else if code = 5 then
    some ("The positioner is currently waiting for the sensor to " ++
      "power up before executing the movement command. This " ++
      "status may be returned if the sensors are operated " ++
      " in power save mode.")
  else if code = 6 then
    some "The positioner is buusy calibrating its sensor."
  else if code = 7 then
    some "The positioner is moving to find the reference mark."
  else if code = 9 then
    some ("An emergency stop has occurred and further movements " ++
      "are not allowed.")
  else none

/-- `SmaractBaseAxis.status` (axis.py lines 121-134) as a function of the
raw state code read from the hardware: both dictionary lookups must
succeed, otherwise the property raises `KeyError` (modelled as `none`). -/
def axis_status (state_code : Int) : Option (Int × String × String) :=
  match states_txt state_code with
  | none => none
  | some state_msg =>
    match status_txt state_code with
    | none => none
    | some status => some (state_code, state_msg, status)

/-! ### axis.py — SmaractMCSAngularAxis (lines 1047-1081)

`_angle_rev` in the source computes, for an integer position `p`:
`angle = int(p % TURN)` and `revolutions = int(p / TURN) + sign` with
`sign = -1` for `p < 0` and `0` otherwise. `TURN` is the float
`360*1e6 = 360000000.0` exactly. For `|p| <= 10^9` the modulo is exact
(the result is an integer below 2^53) and agrees with `Int.emod` for the
positive divisor, and `int(p / TURN)` truncates the float quotient toward
zero: the exact quotient is at distance at least `1/TURN > 2.7e-9` from
any nonzero integer unless `p` is a multiple of `TURN`, while the float
rounding error is below `1e-15`, so the truncation equals the integer
T-division `Int.div`. -/

/-- `SmaractMCSAngularAxis._angle_rev` (axis.py lines 1057-1063). -/
def angle_rev (position : Int) : Int × Int :=
  let sign : Int := if position < 0 then -1 else 0
  let angle : Int := Int.emod position TURN
  let revolutions : Int := Int.tdiv position TURN + sign
  (angle, revolutions)

/-- Outcome of a move command: the payload handed to the controller
`send_cmd`, or a `ValueError` from a range validator, or an uncaught
`TypeError`. -/
inductive MoveResult where
  | sent : List Char → MoveResult
  | invalid : String → MoveResult
  | typeError : MoveResult
deriving DecidableEq

/-- `SmaractMCSAngularAxis.move_angle_absolute` (axis.py lines 1065-1081):
validates the angle, the revolutions and the hold time in that order,
then sends `MAA` with the three parameters. -/
def move_angle_absolute (axis_nr : Nat) (angle rev hold_time : Int) :
    MoveResult :=
  match is_angle_in_range (.single angle) with
  | .valueError m => .invalid m
  | .typeError => .typeError
  | .ok =>
    match is_revolution_in_range (.single rev) with
    | .valueError m => .invalid m
    | .typeError => .typeError
    | .ok =>
      match is_hold_time_in_range (.single hold_time) with
      | .valueError m => .invalid m
      | .typeError => .typeError
      | .ok =>
        .sent (axis_send_payload ['M', 'A', 'A'] axis_nr
          [angle, rev, hold_time])

/-- `SmaractMCSAngularAxis.move` (axis.py lines 1047-1055): decompose the
target position through `_angle_rev`, then delegate to
`move_angle_absolute`. -/
def angular_move (axis_nr : Nat) (position hold_time : Int) : MoveResult :=
  let ar := angle_rev position
  move_angle_absolute axis_nr ar.1 ar.2 hold_time

/-! ### axis.py — the force accessor on MCS axes (lines 480-491)

`force` is defined on `SmaractMCSBaseAxis` and inherited unchanged by
both Positioner-classified subclasses `SmaractMCSLinearAxis` and
`SmaractMCSAngularAxis`; no override and no capability check exists, so
Python attribute lookup resolves it for every MCS axis kind and the body
runs `self._send_cmd('GF')` regardless of the kind. -/

/-- The two Positioner-classified MCS axis variants. -/
inductive MCSAxisKind where
  | linear : MCSAxisKind
  | angular : MCSAxisKind
deriving DecidableEq

/-- Command payload sent by the `force` property for an axis of the given
kind and channel number: `GF` followed by the channel digit, identical
for every kind because the method is inherited without override. -/
def force_payload (_k : MCSAxisKind) (axis_nr : Nat) : List Char :=
  axis_send_payload ['G', 'F'] axis_nr []

/-- Wire frames written to the transport by one call of the `force`
property before any answer is inspected. -/
def force_frames (k : MCSAxisKind) (axis_nr : Nat) : List (List Char) :=
  [comm_frame (force_payload k axis_nr)]

/-! ### controller.py — SmaractMCSController._create_axes (lines 205-225) -/

/-- `SmaractBaseController.LINEAR_SENSORS` (controller.py line 91). -/
def LINEAR_SENSORS : List Int := [1, 5, 6, 9, 18, 21, 24, 32, 35]

/-- `SmaractBaseController.ROTARY_SENSORS` (controller.py line 93). -/
def ROTARY_SENSORS : List Int := [2, 8, 14, 20, 22, 23, 25, 26, 27, 28, 29]

/-- An axis object held in the controller channel list. -/
inductive MCSAxis where
  | linear : Nat → MCSAxis
  | angular : Nat → MCSAxis
deriving DecidableEq

/-- The enumeration loop of `_create_axes` (controller.py lines 213-225):
`codes` are the sensor codes reported by `GST<axis_nr>` for the
successive channels, `acc` is the channel list built so far (the
controller itself, a Python list). On a sensor code outside both sets a
`RuntimeError` is raised; the flag `true` records it, and the returned
list is the list as it stands at that moment, since the raise does not
undo the `append` calls already executed. -/
def create_axes_loop (axis_nr : Nat) (codes : List Int)
    (acc : List MCSAxis) : List MCSAxis × Bool :=
  match codes with
  | [] => (acc, false)
  | c :: rest =>
    if c ∈ LINEAR_SENSORS then
      create_axes_loop (axis_nr + 1) rest (acc ++ [MCSAxis.linear axis_nr])
    else if c ∈ ROTARY_SENSORS then
      create_axes_loop (axis_nr + 1) rest (acc ++ [MCSAxis.angular axis_nr])
    else (acc, true)

/-- `_create_axes` (controller.py lines 205-225): the `while True: pop`
loop first empties the existing channel list (so `prior` never influences
the result), then the enumeration loop runs from channel 0 over the
reported sensor codes. The boolean is the raised-`RuntimeError` flag. -/
def create_axes (_prior : List MCSAxis) (codes : List Int) :
    List MCSAxis × Bool :=
  create_axes_loop 0 codes []

/-! ## Helper lemmas -/

theorem natToCharsAux_mem :
    ∀ (fuel n : Nat) (acc : List Char) (c : Char),
      c ∈ natToCharsAux fuel n acc → c ∈ acc ∨ ∃ d, c = digitChar d := by
  intro fuel
  induction fuel with
  | zero =>
    intro n acc c h
    exact Or.inl h
  | succ fuel ih =>
    intro n acc c h
    rw [show natToCharsAux (fuel + 1) n acc =
        if n < 10 then digitChar n :: acc
        else natToCharsAux fuel (n / 10) (digitChar (n % 10) :: acc)
      from rfl] at h
    by_cases hn : n < 10
    · rw [if_pos hn] at h
      rcases List.mem_cons.mp h with h | h
      · exact Or.inr ⟨n, h⟩
      · exact Or.inl h
    · rw [if_neg hn] at h
      rcases ih (n / 10) (digitChar (n % 10) :: acc) c h with h | h
      · rcases List.mem_cons.mp h with h | h
        · exact Or.inr ⟨n % 10, h⟩
        · exact Or.inl h
      · exact Or.inr h

theorem digitChar_ne_space (d : Nat) : digitChar d ≠ ' ' := by
  unfold digitChar
  split <;> decide

theorem space_not_mem_natToChars (n : Nat) : ' ' ∉ natToChars n := by
  intro h
  rcases natToCharsAux_mem (n + 1) n [] ' ' h with h | ⟨d, hd⟩
  · exact List.not_mem_nil ' ' h
  · exact digitChar_ne_space d hd.symm

theorem space_not_mem_intToChars (i : Int) : ' ' ∉ intToChars i := by
  unfold intToChars
  split
  · intro h
    rcases List.mem_cons.mp h with h | h
    · exact absurd h (by decide)
    · exact space_not_mem_natToChars _ h
  · exact space_not_mem_natToChars _

theorem space_not_mem_pars_join (ps : List Int) : ' ' ∉ pars_join ps := by
  intro h
  unfold pars_join at h
  rw [List.mem_flatten] at h
  obtain ⟨l, hl, hmem⟩ := h
  rw [List.mem_map] at hl
  obtain ⟨i, _, rfl⟩ := hl
  rcases List.mem_cons.mp hmem with h | h
  · exact absurd h (by decide)
  · exact space_not_mem_intToChars i h

theorem acc_check_cases (xs : List Int) :
    acc_check xs = ValidateResult.ok ∨
    acc_check xs = ValidateResult.valueError acc_msg := by
  induction xs with
  | nil => exact Or.inl rfl
  | cons v rest ih =>
    unfold acc_check
    split
    · exact ih
    · exact Or.inr rfl

/-! ## Claim theorems -/

/-- Claim C1: for an answer of at least two characters, send_cmd returns
the answer unchanged when it is not error-flagged (first character not
the letter E, or second character S); when it is error-flagged it parses
the integer after the last comma, raises a RuntimeError carrying that
code and the table message (or the generic undocumented-error message)
whenever the code is non-zero, and returns the answer unchanged for code
0. Payload E,157 yields the error 157 with message Permission Denied
Error, and payload P,3,1500 is returned unchanged. -/
theorem c1_send_cmd_error_classification :
    (∀ (c0 c1 : Char) (rest : List Char), (c0 ≠ 'E' ∨ c1 = 'S') →
      check_answer (c0 :: c1 :: rest) = SendResult.ok (c0 :: c1 :: rest))
    ∧ (∀ (c0 c1 : Char) (rest : List Char) (code : Int),
      c0 = 'E' → c1 ≠ 'S' →
      parse_error_code (c0 :: c1 :: rest) = some code → code ≠ 0 →
      check_answer (c0 :: c1 :: rest) =
        SendResult.raised code (error_message code))
    ∧ (∀ (c0 c1 : Char) (rest : List Char),
      c0 = 'E' → c1 ≠ 'S' →
      parse_error_code (c0 :: c1 :: rest) = some 0 →
      check_answer (c0 :: c1 :: rest) = SendResult.ok (c0 :: c1 :: rest))
    ∧ error_message 157 = "Permission Denied Error"
    ∧ error_message 158 =
        "There is not message for this error on the documentation"
    ∧ check_answer ("E,157".data) =
        SendResult.raised 157 "Permission Denied Error"
    ∧ check_answer ("P,3,1500".data) = SendResult.ok ("P,3,1500".data) := by
  refine ⟨?_, ?_, ?_, by decide, by decide, by decide, by decide⟩
  · intro c0 c1 rest h
    rcases h with h | h
    · simp [check_answer, h]
    · by_cases hE : c0 = 'E' <;> simp [check_answer, hE, h]
  · intro c0 c1 rest code hE hS hparse hcode
    subst hE
    simp [check_answer, hS, hparse, hcode]
  · intro c0 c1 rest hE hS hparse
    subst hE
    simp [check_answer, hS, hparse]

theorem c1_witness :
    check_answer ('E' :: ',' :: "157".data) =
      SendResult.raised 157 (error_message 157) :=
  c1_send_cmd_error_classification.2.1 'E' ',' "157".data 157 rfl
    (by decide) (by decide) (by decide)

/-- Claim C2 (code bug): the decomposition performed by _angle_rev does
not round-trip on the whole claimed interval. At the in-range position
-360000000 the code returns angle 0 and revolutions -2, which recombines
to -720000000, one full turn below the input; at a nearby non-multiple
such as -100 the decomposition does round-trip. -/
theorem c2_angle_rev_roundtrip_failure :
    angle_rev (-360000000) = (0, -2)
    ∧ (-2 : Int) * TURN + 0 = -720000000
    ∧ ((-720000000 : Int) ≠ -360000000)
    ∧ angle_rev (-100) = (359999900, -1)
    ∧ (-1 : Int) * TURN + 359999900 = -100
    ∧ angle_rev 400000000 = (40000000, 1)
    ∧ (1 : Int) * TURN + 40000000 = 400000000 := by
  refine ⟨by decide, by decide, by decide, by decide, by decide,
    by decide, by decide⟩

/-- Claim C3 (counterexample): with 2 channels reporting sensor codes 1
then 99, enumeration raises on channel 1, yet the Linear axis already
created for channel 0 stays in the channel list — a partial channel list
IS retained after the failure, contrary to the claim. -/
theorem c3_counterexample :
    create_axes [] [1, 99] = ([MCSAxis.linear 0], true)
    ∧ ([MCSAxis.linear 0] : List MCSAxis) ≠ [] := by
  exact ⟨by decide, by decide⟩

/-- Claim C3 (amended): enumeration first clears any existing channel
list (the prior list never influences the result), classifies each
channel by the fixed linear and rotary sensor-code sets (2 channels with
codes 1 then 2 yield a Linear axis at index 0 and an Angular axis at
index 1), and raises a fatal error on a code outside both sets; the
failure leaves the axes created for the earlier channels in the list, so
a partial channel list is retained until the next rebuild. -/
theorem c3_enumeration_amended :
    (∀ (prior : List MCSAxis) (codes : List Int),
      create_axes prior codes = create_axes [] codes)
    ∧ create_axes [] [1, 2] = ([MCSAxis.linear 0, MCSAxis.angular 1], false)
    ∧ (∀ (i : Nat) (acc : List MCSAxis) (c : Int) (rest : List Int),
      c ∉ LINEAR_SENSORS → c ∉ ROTARY_SENSORS →
      create_axes_loop i (c :: rest) acc = (acc, true))
    ∧ (∀ (i : Nat) (acc : List MCSAxis) (c : Int) (rest : List Int),
      c ∈ LINEAR_SENSORS →
      create_axes_loop i (c :: rest) acc =
        create_axes_loop (i + 1) rest (acc ++ [MCSAxis.linear i]))
    ∧ (∀ (i : Nat) (acc : List MCSAxis) (c : Int) (rest : List Int),
      c ∉ LINEAR_SENSORS → c ∈ ROTARY_SENSORS →
      create_axes_loop i (c :: rest) acc =
        create_axes_loop (i + 1) rest (acc ++ [MCSAxis.angular i])) := by
  refine ⟨fun prior codes => rfl, by decide, ?_, ?_, ?_⟩
  · intro i acc c rest h1 h2
    simp [create_axes_loop, h1, h2]
  · intro i acc c rest h1
    simp [create_axes_loop, h1]
  · intro i acc c rest h1 h2
    simp [create_axes_loop, h1, h2]

theorem c3_witness :
    create_axes_loop 1 [99] [MCSAxis.linear 0] = ([MCSAxis.linear 0], true) :=
  c3_enumeration_amended.2.2.1 1 [MCSAxis.linear 0] 99 []
    (by decide) (by decide)

/-- Claim C4 (counterexample): the raw status code 255 has no entry in
the status tables, so reading the status raises a KeyError (modelled as
none) instead of mapping to a dedicated unrecognized state. -/
theorem c4_counterexample : axis_status 255 = none := by
  decide

/-- Claim C4 (amended): the status mapping is a partial lookup. Raw code
4 maps to the closed-loop targeting state and raw code 9 to the locked
state, but only the raw codes 0-7 and 9 are mapped: any other code (such
as 255) makes the status property raise a KeyError, so reading status can
itself fail. -/
theorem c4_status_tables_amended :
    axis_status 4 = some (4, "Targeting",
      "The positioner is performing a close-loop movement.")
    ∧ axis_status 9 = some (9, "Locked",
      "An emergency stop has occurred and further movements are not allowed.")
    ∧ axis_status 255 = none
    ∧ (∀ code : Int, (axis_status code).isSome ↔
        (code = 0 ∨ code = 1 ∨ code = 2 ∨ code = 3 ∨ code = 4 ∨ code = 5 ∨
         code = 6 ∨ code = 7 ∨ code = 9)) := by
  refine ⟨by decide, by decide, by decide, ?_⟩
  intro code
  constructor
  · intro h
    by_contra hc
    push_neg at hc
    obtain ⟨h0, h1, h2, h3, h4, h5, h6, h7, h9⟩ := hc
    simp [axis_status, states_txt, h0, h1, h2, h3, h4, h5, h6, h7, h9] at h
  · rintro (rfl | rfl | rfl | rfl | rfl | rfl | rfl | rfl | rfl) <;> decide

/-- Claim C5 (counterexample): calling the force accessor on a
Positioner-classified Linear axis (channel 0) writes the command frame
:GF0 followed by a newline to the transport — it does NOT avoid sending a
command frame, contrary to the claim. -/
theorem c5_counterexample :
    force_frames MCSAxisKind.linear 0 = [":GF0\n".data]
    ∧ ([":GF0\n".data] : List (List Char)) ≠ [] := by
  exact ⟨by decide, by decide⟩

/-- Claim C5 (amended): the force accessor is inherited unchanged from
the MCS base class, so calling it on a Positioner-classified axis (Linear
or Angular) performs no client-side capability check: it sends the GF
command frame for its channel, identically for both kinds, and any
capability mismatch is only reported by the hardware afterwards. -/
theorem c5_force_amended :
    (∀ (k : MCSAxisKind) (n : Nat),
      force_frames k n = [':' :: ('G' :: 'F' :: natToChars n) ++ ['\n']])
    ∧ (∀ n : Nat, force_frames MCSAxisKind.linear n =
        force_frames MCSAxisKind.angular n)
    ∧ force_frames MCSAxisKind.linear 3 = [":GF3\n".data] := by
  refine ⟨?_, fun n => rfl, by decide⟩
  intro k n
  simp [force_frames, force_payload, comm_frame, axis_send_payload,
    pars_join]

/-- Claim C6: the codec encoding produces the frame made of a colon, the
mnemonic, one comma-prefixed decimal integer per parameter and a newline,
with no internal spaces when the mnemonic has none; decoding strips
exactly one leading and one trailing character from the raw answer; hence
decoding the encoded frame returns the mnemonic-and-parameters payload
losslessly, e.g. encode GP 3 gives the frame :GP,3 plus newline, which
decodes back to GP,3. -/
theorem c6_codec_roundtrip :
    (∀ (m : List Char) (ps : List Int),
      encode m ps = ':' :: (m ++ pars_join ps) ++ ['\n'])
    ∧ (∀ (c : Char) (xs : List Char) (y : Char),
      comm_strip (c :: xs ++ [y]) = xs)
    ∧ (∀ (m : List Char) (ps : List Int), ' ' ∉ m → ' ' ∉ encode m ps)
    ∧ (∀ (m : List Char) (ps : List Int),
      comm_strip (encode m ps) = encode_payload m ps)
    ∧ encode "GP".data [3] = ":GP,3\n".data
    ∧ comm_strip (encode "GP".data [3]) = "GP,3".data := by
  refine ⟨fun m ps => rfl, ?_, ?_, ?_, by decide, by decide⟩
  · intro c xs y
    simp [comm_strip]
  · intro m ps hm h
    simp only [encode, comm_frame, encode_payload] at h
    rcases List.mem_cons.mp h with h | h
    · exact absurd h (by decide)
    · simp only [List.append_eq, List.mem_append] at h
      rcases h with (h | h) | h
      · exact hm h
      · exact space_not_mem_pars_join ps h
      · exact absurd h (by decide)
  · intro m ps
    simp [encode, comm_frame, comm_strip, encode_payload]

theorem c6_witness :
    ' ' ∉ encode "GP".data [3]
    ∧ comm_strip (encode "GP".data [3]) = encode_payload "GP".data [3] :=
  ⟨c6_codec_roundtrip.2.2.1 "GP".data [3] (by decide),
    c6_codec_roundtrip.2.2.2.1 "GP".data [3]⟩

/-- Claim C7: on an Angular axis, move first decomposes the target
through _angle_rev against TURN, then move_angle_absolute validates the
angle range and the revolution range separately and issues the MAA
command with those values; move at position 400000000 issues the
absolute-angle command with angle 40000000 and revolutions 1. -/
theorem c7_angular_move :
    (∀ (n : Nat) (pos ht : Int), angular_move n pos ht =
      move_angle_absolute n (angle_rev pos).1 (angle_rev pos).2 ht)
    ∧ (∀ (n : Nat) (angle rev ht : Int),
      MIN_ANGLE ≤ angle → angle ≤ MAX_ANGLE →
      MIN_REV ≤ rev → rev ≤ MAX_REV →
      MIN_HOLD_TIME ≤ ht → ht ≤ MAX_HOLD_TIME →
      move_angle_absolute n angle rev ht =
        MoveResult.sent (axis_send_payload ['M', 'A', 'A'] n
          [angle, rev, ht]))
    ∧ (∀ (n : Nat) (angle rev ht : Int),
      ¬(MIN_ANGLE ≤ angle ∧ angle ≤ MAX_ANGLE) →
      move_angle_absolute n angle rev ht = MoveResult.invalid angle_msg)
    ∧ (∀ (n : Nat) (angle rev ht : Int),
      (MIN_ANGLE ≤ angle ∧ angle ≤ MAX_ANGLE) →
      ¬(MIN_REV ≤ rev ∧ rev ≤ MAX_REV) →
      move_angle_absolute n angle rev ht = MoveResult.invalid rev_msg)
    ∧ angle_rev 400000000 = (40000000, 1)
    ∧ angular_move 0 400000000 0 =
        MoveResult.sent ("MAA0,40000000,1,0".data) := by
  refine ⟨fun n pos ht => rfl, ?_, ?_, ?_, by decide, by decide⟩
  · intro n angle rev ht h1 h2 h3 h4 h5 h6
    simp [move_angle_absolute, is_angle_in_range, angle_check,
      is_revolution_in_range, rev_check, is_hold_time_in_range,
      hold_time_check, h1, h2, h3, h4, h5, h6]
  · intro n angle rev ht h
    simp [move_angle_absolute, is_angle_in_range, angle_check, h]
  · intro n angle rev ht h1 h2
    simp [move_angle_absolute, is_angle_in_range, angle_check,
      is_revolution_in_range, rev_check, h1.1, h1.2, h2]

theorem c7_witness :
    move_angle_absolute 0 40000000 1 0 =
      MoveResult.sent ("MAA0,40000000,1,0".data) :=
  (c7_angular_move.2.1 0 40000000 1 0 (by decide) (by decide) (by decide)
    (by decide) (by decide) (by decide)).trans (by decide)

/-- Claim C8 (code bug): the steps validator in list shape accepts the
in-range non-zero values and rejects 0 and values beyond 30000 in
absolute value with the fixed message, but the single-value shape does
not get wrapped into a list (constants.py line 248 reads
values = (values) instead of values = [values]), so a single integer
argument raises TypeError instead of being checked. -/
theorem c8_steps_validator_bug :
    is_steps_in_range (PyArg.single 100) = ValidateResult.typeError
    ∧ is_steps_in_range (PyArg.list [100]) = ValidateResult.ok
    ∧ is_steps_in_range (PyArg.list [30000]) = ValidateResult.ok
    ∧ is_steps_in_range (PyArg.list [-30000]) = ValidateResult.ok
    ∧ is_steps_in_range (PyArg.list [0]) =
        ValidateResult.valueError steps_msg
    ∧ is_steps_in_range (PyArg.list [30001]) =
        ValidateResult.valueError steps_msg
    ∧ is_steps_in_range (PyArg.list [-30001]) =
        ValidateResult.valueError steps_msg
    ∧ steps_msg = "Valid step range is [-30000, 30000]" := by
  refine ⟨by decide, by decide, by decide, by decide, by decide,
    by decide, by decide, rfl⟩

/-- Claim C9: the acceleration validator succeeds on every value in the
closed interval from 0 to 100000000, fails on -1 and on 100000001 with
the message naming the quantity and the interval, and is a pure check
producing no command: its only outcomes are success or that ValueError. -/
theorem c9_acceleration_validator :
    (∀ a : Int, 0 ≤ a → a ≤ MAX_ACCELERATION →
      is_acceleration_in_range (PyArg.single a) = ValidateResult.ok)
    ∧ is_acceleration_in_range (PyArg.single (-1)) =
        ValidateResult.valueError acc_msg
    ∧ is_acceleration_in_range (PyArg.single (MAX_ACCELERATION + 1)) =
        ValidateResult.valueError acc_msg
    ∧ acc_msg = "Valid acceleration range: [0,100000000] um/s^2"
    ∧ (∀ arg : PyArg, is_acceleration_in_range arg = ValidateResult.ok ∨
        is_acceleration_in_range arg = ValidateResult.valueError acc_msg) := by
  refine ⟨?_, by decide, by decide, rfl, ?_⟩
  · intro a h1 h2
    simp [is_acceleration_in_range, acc_check, h1, h2]
  · intro arg
    cases arg with
    | single x => exact acc_check_cases [x]
    | list xs => exact acc_check_cases xs

theorem c9_witness :
    is_acceleration_in_range (PyArg.single 5) = ValidateResult.ok :=
  c9_acceleration_validator.1 5 (by decide) (by decide)

/-- Claim C10: every axis-level command payload is the mnemonic, then the
zero-based channel number immediately after it with no separator, then
one comma-prefixed decimal per further parameter; a position query on
channel 3 produces payload GP3 with wire frame :GP3 plus newline, and a
stepping burst on channel 0 with parameters 100, 500, 1000 produces
MST0,100,500,1000. -/
theorem c10_axis_payload :
    (∀ (m : List Char) (n : Nat) (ps : List Int),
      comm_frame (axis_send_payload m n ps) =
        ':' :: m ++ natToChars n ++ pars_join ps ++ ['\n'])
    ∧ axis_send_payload "GP".data 3 [] = "GP3".data
    ∧ comm_frame (axis_send_payload "GP".data 3 []) = ":GP3\n".data
    ∧ axis_send_payload "MST".data 0 [100, 500, 1000] =
        "MST0,100,500,1000".data
    ∧ pars_join [100, 500, 1000] = ",100,500,1000".data := by
  refine ⟨?_, by decide, by decide, by decide, by decide⟩
  intro m n ps
  simp [comm_frame, axis_send_payload]

end Smaract
